import Mathlib

/-!
Verification development for the homelab MCP server
(`apps/homelab-mcp/src/server.py`).

The server shells out to `kubectl`, parses its output, and reduces it to
summary documents.  We embed the Python functions shallowly:

* JSON values (Python dicts/lists/strings/numbers as produced by
  `json.loads`) become the inductive `JVal`;
* Python dictionary indexing `d[k]`, `d.get(k, default)`, membership
  `k in d`, iteration `for x in v` and truthiness are modelled by
  `pyIndex`, `pyGetD`, `pyContains`, `pyIter` and `pyTruthy`, each
  returning `Except String _` where the Python operation can raise
  (`Except.error` models an uncaught Python exception carrying the
  exception text);
* the operating-system behaviour of a spawned child process is the
  parameter `ProcOutcome` (exit with code/stdout/stderr, timeout, or an
  exception raised by `subprocess.run`, e.g. `FileNotFoundError`); an
  environment `env : List String → ProcOutcome` gives the outcome of each
  concrete command line;
* whether a stdout text decodes as JSON — a property of the external
  `json` library, a collaborator — is carried by the `Stdout` type:
  `Stdout.jsonText v` is a stdout that decodes to `v`, `Stdout.rawText s`
  one that does not decode.
-/

namespace HomelabMCP

/-- JSON values as produced by `json.loads`: the transient data model of
the server.  Numbers are integers here (the payloads counted and compared
by the server are object fields, strings and integer counts). -/
inductive JVal where
  | null : JVal
  | bool : Bool → JVal
  | num : Int → JVal
  | str : String → JVal
  | arr : List JVal → JVal
  | obj : List (String × JVal) → JVal

/-- Association-list lookup for object fields (Python dict lookup; the
dicts built by `json.loads` have unique keys). -/
def jLookup (kvs : List (String × JVal)) (k : String) : Option JVal :=
  (kvs.find? (fun kv => kv.1 == k)).map (fun kv => kv.2)

/-- Python `v == "lit"` where `v` is an arbitrary JSON value and `"lit"` a
string literal: true exactly when `v` is that string. -/
def JVal.eqStr : JVal → String → Bool
  | .str s, t => s == t
  | _, _ => false

/-- Python truthiness of a JSON value (`if x:`). -/
def pyTruthy : JVal → Bool
  | .null => false
  | .bool b => b
  | .num n => n != 0
  | .str s => s != ""
  | .arr xs => !xs.isEmpty
  | .obj kvs => !kvs.isEmpty

mutual
/-- Rendering of a JSON value inside a Python f-string (`f"... {v} ..."`).
Only the rendering of strings and numbers is relied upon by any theorem;
composite values are rendered JSON-style. -/
def pyStrOf : JVal → String
  | .null => "None"
  | .bool true => "True"
  | .bool false => "False"
  | .num n => toString n
  | .str s => s
  | .arr xs => "[" ++ pyStrOfList xs ++ "]"
  | .obj kvs => "\x7b" ++ pyStrOfPairs kvs ++ "\x7d"

def pyStrOfList : List JVal → String
  | [] => ""
  | [x] => pyStrOf x
  | x :: xs => pyStrOf x ++ ", " ++ pyStrOfList xs

def pyStrOfPairs : List (String × JVal) → String
  | [] => ""
  | [kv] => kv.1 ++ ": " ++ pyStrOf kv.2
  | kv :: kvs => kv.1 ++ ": " ++ pyStrOf kv.2 ++ ", " ++ pyStrOfPairs kvs
end

/-- Python `v[k]` for a string key: `KeyError` when the key is absent,
`TypeError` when `v` is not a dict. -/
def pyIndex : JVal → String → Except String JVal
  | .obj kvs, k =>
    match jLookup kvs k with
    | some v => .ok v
    | none => .error ("KeyError: " ++ k)
  | _, k => .error ("TypeError: value not subscriptable at key " ++ k)

/-- Python `v.get(k, default)`: `AttributeError` when `v` is not a dict. -/
def pyGetD : JVal → String → JVal → Except String JVal
  | .obj kvs, k, d => .ok ((jLookup kvs k).getD d)
  | _, k, _ => .error ("AttributeError: no attribute get at key " ++ k)

/-- Python `v.get(k)` (default `None`). -/
def pyGet (v : JVal) (k : String) : Except String JVal :=
  pyGetD v k .null

/-- Whether a character list contains another as a contiguous segment
(Python substring membership). -/
def charsInfixOf (needle : List Char) : List Char → Bool
  | [] => needle.isEmpty
  | c :: cs => needle.isPrefixOf (c :: cs) || charsInfixOf needle cs

/-- Python `k in v` for a string `k`: key membership for dicts, element
equality for lists, substring for strings, `TypeError` otherwise. -/
def pyContains : JVal → String → Except String Bool
  | .obj kvs, k => .ok (kvs.any (fun kv => kv.1 == k))
  | .arr xs, k => .ok (xs.any (fun x => x.eqStr k))
  | .str s, k => .ok (charsInfixOf k.data s.data)
  | _, _ => .error "TypeError: argument not iterable"

/-- Python `for x in v`: lists yield elements, strings yield their
characters, dicts yield their keys, anything else raises `TypeError`.
The length of the returned list is Python `len(v)` wherever `len` is
defined. -/
def pyIter : JVal → Except String (List JVal)
  | .arr xs => .ok xs
  | .str s => .ok (s.data.map (fun c => .str (String.singleton c)))
  | .obj kvs => .ok (kvs.map (fun kv => .str kv.1))
  | _ => .error "TypeError: value not iterable"

/-- Effectful map over a list, stopping at the first error — the semantics
of a Python `for` loop whose body may raise. -/
def exMapM (f : α → Except String β) : List α → Except String (List β)
  | [] => .ok []
  | a :: as =>
    match f a with
    | .error e => .error e
    | .ok b =>
      match exMapM f as with
      | .error e => .error e
      | .ok bs => .ok (b :: bs)

/-- Effectful filter, stopping at the first error — the semantics of a
Python list comprehension `[a for a in l if p(a)]` whose predicate may
raise. -/
def exFilter (p : α → Except String Bool) : List α → Except String (List α)
  | [] => .ok []
  | a :: as =>
    match p a with
    | .error e => .error e
    | .ok b =>
      match exFilter p as with
      | .error e => .error e
      | .ok rest => .ok (if b then a :: rest else rest)

/-- The stdout of a completed child process, together with the verdict of
the external JSON decoder on it: `jsonText v` is a text that
`json.loads` decodes to `v`; `rawText s` is a text `s` that fails to
decode (raises `JSONDecodeError`). -/
inductive Stdout where
  | jsonText : JVal → Stdout
  | rawText : String → Stdout

/-- What the operating system did with one spawned command:
completed with an exit code, stdout and stderr; timed out after the fixed
30-second bound; or `subprocess.run` raised some other exception
(e.g. `FileNotFoundError` when the executable is missing) with the given
message. -/
inductive ProcOutcome where
  | completed : Int → Stdout → String → ProcOutcome
  | timedOut : ProcOutcome
  | raised : String → ProcOutcome

/-- An environment maps each concrete command line to the outcome of
running it. -/
def Env : Type := List String → ProcOutcome

/-- Embedding of `run_command` (server.py lines 96-116): non-zero exit
gives an error/returncode dict from stderr; on zero exit the stdout is
JSON-decoded, falling back to an output dict on decode failure; a timeout
gives the fixed timeout dict; any other exception from `subprocess.run`
is caught and gives an error dict from the exception text. -/
def run_command (o : ProcOutcome) : JVal :=
  match o with
  | .completed rc stdout stderr =>
    if rc != 0 then
      .obj [("error", .str stderr), ("returncode", .num rc)]
    else
      match stdout with
      | .jsonText v => v
      | .rawText s => .obj [("output", .str s)]
  | .timedOut => .obj [("error", .str "Command timed out")]
  | .raised msg => .obj [("error", .str msg)]

/-- A text content block returned to the transport: either a plain
(f-string) error message or the `json.dumps` pretty-printing of a JSON
payload.  Serialisation itself is a library call; we keep the payload
structured. -/
inductive ToolText where
  | errText : String → ToolText
  | jsonDoc : JVal → ToolText

/-! Command lines built by the per-tool functions (fixed argument
templates, server.py lines 120, 152-156, 196-200, 247-252, 263-266,
282-288). -/

/-- Command line of the node query. -/
def nodesCmd : List String := ["kubectl", "get", "nodes", "-o", "json"]

/-- Command line of the pod query (server.py lines 152-156): a non-empty
(truthy) namespace adds `-n <namespace>`, otherwise `--all-namespaces`. -/
def podsCmd (ns : String) : List String :=
  if ns != "" then
    ["kubectl", "get", "pods", "-o", "json"] ++ ["-n", ns]
  else
    ["kubectl", "get", "pods", "-o", "json"] ++ ["--all-namespaces"]

/-- Command line of the ArgoCD application query. -/
def argoCmd : List String :=
  ["kubectl", "get", "applications", "-n", "argocd", "-o", "json"]

/-- Command line of the Ceph tools-pod lookup: a jsonpath query with a
fixed label selector in a fixed namespace. -/
def cephLookupCmd : List String :=
  ["kubectl", "get", "pod", "-n", "rook-ceph", "-l", "app=rook-ceph-tools",
   "-o", "jsonpath=\x7b.items[0].metadata.name\x7d"]

/-- Command line of the Ceph status remote exec inside the resolved pod. -/
def cephExecCmd (podName : String) : List String :=
  ["kubectl", "exec", "-n", "rook-ceph", podName,
   "--", "ceph", "status", "-f", "json"]

/-- Command line of the Prometheus alert query (disposable curl pod). -/
def alertsCmd : List String :=
  ["kubectl", "run", "curl-temp",
   "--rm", "-i", "--restart=Never",
   "--image=curlimages/curl:latest",
   "--", "curl", "-s",
   "http://kube-prometheus-stack-prometheus.monitoring:9090/api/v1/alerts"]

/-! Node query (server.py lines 118-148). -/

/-- The condition loop of `get_k8s_nodes` (lines 133-136): starting from
`status = "Unknown"`, each condition whose `type` equals `"Ready"`
overwrites the status with `"Ready"` or `"NotReady"` according to whether
its `status` field equals the string `"True"`.  Indexing a malformed
condition raises. -/
def readyStatusAux (st : String) : List JVal → Except String String
  | [] => .ok st
  | c :: cs =>
    match pyIndex c "type" with
    | .error e => .error e
    | .ok t =>
      if t.eqStr "Ready" then
        match pyIndex c "status" with
        | .error e => .error e
        | .ok s =>
          readyStatusAux (if s.eqStr "True" then "Ready" else "NotReady") cs
      else
        readyStatusAux st cs

/-- Readiness classification of a node from its condition list. -/
def readyStatus (conds : List JVal) : Except String String :=
  readyStatusAux "Unknown" conds

/-- One iteration of the node loop (lines 131-139): extract the name,
classify readiness from `status.conditions`, extract the kubelet version,
and format the line `"<name>: <status> (v<version>)"`. -/
def nodeLine (node : JVal) : Except String String :=
  match pyIndex node "metadata" with
  | .error e => .error e
  | .ok md =>
    match pyIndex md "name" with
    | .error e => .error e
    | .ok name =>
      match pyIndex node "status" with
      | .error e => .error e
      | .ok st =>
        match pyIndex st "conditions" with
        | .error e => .error e
        | .ok conds =>
          match pyIter conds with
          | .error e => .error e
          | .ok condList =>
            match readyStatus condList with
            | .error e => .error e
            | .ok status =>
              match pyIndex st "nodeInfo" with
              | .error e => .error e
              | .ok ni =>
                match pyIndex ni "kubeletVersion" with
                | .error e => .error e
                | .ok version =>
                  .ok (pyStrOf name ++ ": " ++ status ++
                       " (v" ++ pyStrOf version ++ ")")

/-- The success payload of the node query (lines 141-148). -/
def nodesPayload (result : JVal) (n : Nat) (info : List String) : JVal :=
  .obj [("summary", .str (toString n ++ " nodes total")),
        ("nodes", .arr (info.map .str)),
        ("raw", result)]

/-- Embedding of `get_k8s_nodes` (lines 118-148).  `Except.error` models
an exception escaping the function uncaught. -/
def get_k8s_nodes (env : Env) : Except String (List ToolText) :=
  let result := run_command (env nodesCmd)
  match pyContains result "error" with
  | .error e => .error e
  | .ok true =>
    match pyIndex result "error" with
    | .error e => .error e
    | .ok ev => .ok [.errText ("Error getting nodes: " ++ pyStrOf ev)]
  | .ok false =>
    match pyGetD result "items" (.arr []) with
    | .error e => .error e
    | .ok items =>
      match pyIter items with
      | .error e => .error e
      | .ok nodes =>
        match exMapM nodeLine nodes with
        | .error e => .error e
        | .ok info => .ok [.jsonDoc (nodesPayload result nodes.length info)]

/-! Pod query (server.py lines 150-192). -/

/-- The phase of one pod (line 176): `pod["status"].get("phase", "Unknown")`. -/
def phaseOf (pod : JVal) : Except String JVal :=
  match pyIndex pod "status" with
  | .error e => .error e
  | .ok st => pyGetD st "phase" (.str "Unknown")

/-- The pod summary dict (lines 167-184): total fixed to the pod count,
buckets incremented by the loop. -/
structure PodSummary where
  total : Nat
  running : Nat
  pending : Nat
  failed : Nat
  unknown : Nat

/-- One iteration of the pod tally loop (lines 177-184). -/
def podStep (s : PodSummary) (phase : JVal) : PodSummary :=
  if phase.eqStr "Running" then { s with running := s.running + 1 }
  else if phase.eqStr "Pending" then { s with pending := s.pending + 1 }
  else if phase.eqStr "Failed" then { s with failed := s.failed + 1 }
  else { s with unknown := s.unknown + 1 }

/-- The pod tally (lines 167-184) over the extracted phase list. -/
def tallyPods (phases : List JVal) : PodSummary :=
  phases.foldl podStep
    { total := phases.length, running := 0, pending := 0, failed := 0,
      unknown := 0 }

/-- Extraction plus tally: the loop of lines 175-184 (an extraction error
aborts the whole function, so extracting all phases first is
observationally the same as the interleaved loop). -/
def summarizePods (pods : List JVal) : Except String PodSummary :=
  match exMapM phaseOf pods with
  | .error e => .error e
  | .ok phases => .ok (tallyPods phases)

/-- The pod summary as the JSON dict of lines 167-173. -/
def podSummaryJVal (s : PodSummary) : JVal :=
  .obj [("total", .num s.total), ("running", .num s.running),
        ("pending", .num s.pending), ("failed", .num s.failed),
        ("unknown", .num s.unknown)]

/-- Embedding of `get_k8s_pods` (lines 150-192). -/
def get_k8s_pods (env : Env) (ns : String) : Except String (List ToolText) :=
  let result := run_command (env (podsCmd ns))
  match pyContains result "error" with
  | .error e => .error e
  | .ok true =>
    match pyIndex result "error" with
    | .error e => .error e
    | .ok ev => .ok [.errText ("Error getting pods: " ++ pyStrOf ev)]
  | .ok false =>
    match pyGetD result "items" (.arr []) with
    | .error e => .error e
    | .ok items =>
      match pyIter items with
      | .error e => .error e
      | .ok pods =>
        match summarizePods pods with
        | .error e => .error e
        | .ok s =>
          .ok [.jsonDoc (.obj [("summary", podSummaryJVal s),
                               ("raw", result)])]

/-! ArgoCD application query (server.py lines 194-242). -/

/-- Per-application extraction (lines 219-221): `metadata.name`,
`status.sync.status`, `status.health.status`. -/
def appInfo (app : JVal) : Except String (JVal × JVal × JVal) :=
  match pyIndex app "metadata" with
  | .error e => .error e
  | .ok md =>
    match pyIndex md "name" with
    | .error e => .error e
    | .ok name =>
      match pyIndex app "status" with
      | .error e => .error e
      | .ok st =>
        match pyIndex st "sync" with
        | .error e => .error e
        | .ok sy =>
          match pyIndex sy "status" with
          | .error e => .error e
          | .ok syncStatus =>
            match pyIndex st "health" with
            | .error e => .error e
            | .ok he =>
              match pyIndex he "status" with
              | .error e => .error e
              | .ok healthStatus => .ok (name, syncStatus, healthStatus)

/-- The ArgoCD summary dict (lines 209-216). -/
structure AppSummary where
  total : Nat
  synced : Nat
  out_of_sync : Nat
  healthy : Nat
  degraded : Nat
  apps : List JVal

/-- The per-application record appended at line 233. -/
def appRecord (i : JVal × JVal × JVal) : JVal :=
  .obj [("name", i.1), ("sync", i.2.1), ("health", i.2.2)]

/-- One iteration of the application tally loop (lines 223-237). -/
def appStep (s : AppSummary) (i : JVal × JVal × JVal) : AppSummary :=
  let s1 :=
    if i.2.1.eqStr "Synced" then { s with synced := s.synced + 1 }
    else { s with out_of_sync := s.out_of_sync + 1 }
  let s2 :=
    if i.2.2.eqStr "Healthy" then { s1 with healthy := s1.healthy + 1 }
    else if i.2.2.eqStr "Degraded" then { s1 with degraded := s1.degraded + 1 }
    else s1
  { s2 with apps := s2.apps ++ [appRecord i] }

/-- The application tally over the extracted (name, sync, health)
triples. -/
def tallyApps (infos : List (JVal × JVal × JVal)) : AppSummary :=
  infos.foldl appStep
    { total := infos.length, synced := 0, out_of_sync := 0, healthy := 0,
      degraded := 0, apps := [] }

/-- Extraction plus tally: the loop of lines 218-237. -/
def summarizeApps (apps : List JVal) : Except String AppSummary :=
  match exMapM appInfo apps with
  | .error e => .error e
  | .ok infos => .ok (tallyApps infos)

/-- The application summary as the JSON dict of lines 209-216. -/
def appSummaryJVal (s : AppSummary) : JVal :=
  .obj [("total", .num s.total), ("synced", .num s.synced),
        ("out_of_sync", .num s.out_of_sync), ("healthy", .num s.healthy),
        ("degraded", .num s.degraded), ("apps", .arr s.apps)]

/-- Embedding of `get_argocd_apps` (lines 194-242). -/
def get_argocd_apps (env : Env) : Except String (List ToolText) :=
  let result := run_command (env argoCmd)
  match pyContains result "error" with
  | .error e => .error e
  | .ok true =>
    match pyIndex result "error" with
    | .error e => .error e
    | .ok ev => .ok [.errText ("Error getting ArgoCD apps: " ++ pyStrOf ev)]
  | .ok false =>
    match pyGetD result "items" (.arr []) with
    | .error e => .error e
    | .ok items =>
      match pyIter items with
      | .error e => .error e
      | .ok apps =>
        match summarizeApps apps with
        | .error e => .error e
        | .ok s => .ok [.jsonDoc (appSummaryJVal s)]

/-! Ceph status query (server.py lines 244-277). -/

/-- The guard of line 254: `"error" in tools_pod or not
tools_pod.get("output")`, with Python short-circuit evaluation (the
membership test runs first; the `get` only runs when it is false). -/
def cephGuard (tp : JVal) : Except String Bool :=
  match pyContains tp "error" with
  | .error e => .error e
  | .ok true => .ok true
  | .ok false =>
    match pyGet tp "output" with
    | .error e => .error e
    | .ok o => .ok (!pyTruthy o)

/-- Python `s.strip()` on the looked-up output value: `AttributeError`
when the value is not a string. -/
def pyStrip : JVal → Except String String
  | .str s => .ok s.trim
  | _ => .error "AttributeError: no attribute strip"

/-- The second half of `get_ceph_status` (lines 262-277): run
`ceph status` inside the resolved pod and wrap the result. -/
def cephStep2 (env : Env) (podName : String) : Except String (List ToolText) :=
  let result := run_command (env (cephExecCmd podName))
  match pyContains result "error" with
  | .error e => .error e
  | .ok true =>
    match pyIndex result "error" with
    | .error e => .error e
    | .ok ev => .ok [.errText ("Error getting Ceph status: " ++ pyStrOf ev)]
  | .ok false => .ok [.jsonDoc result]

/-- Embedding of `get_ceph_status` (lines 244-277): resolve the tools pod
name first; on a lookup error or falsy output return the fixed message
without consulting the exec command; otherwise strip the output and run
the status command inside the pod. -/
def get_ceph_status (env : Env) : Except String (List ToolText) :=
  let tools_pod := run_command (env cephLookupCmd)
  match cephGuard tools_pod with
  | .error e => .error e
  | .ok true => .ok [.errText "Error: Could not find rook-ceph-tools pod"]
  | .ok false =>
    match pyIndex tools_pod "output" with
    | .error e => .error e
    | .ok ov =>
      match pyStrip ov with
      | .error e => .error e
      | .ok podName => cephStep2 env podName

/-! Prometheus alert query (server.py lines 279-318). -/

/-- The severity predicate of the comprehension at line 302:
`a.get("labels", \x7b\x7d).get("severity") == severity`. -/
def sevPred (severity : String) (a : JVal) : Except String Bool :=
  match pyGetD a "labels" (.obj []) with
  | .error e => .error e
  | .ok labels =>
    match pyGet labels "severity" with
    | .error e => .error e
    | .ok sv => .ok (sv.eqStr severity)

/-- The firing predicate of the comprehension at line 304:
`a.get("state") == "firing"`. -/
def firingPred (a : JVal) : Except String Bool :=
  match pyGet a "state" with
  | .error e => .error e
  | .ok st => .ok (st.eqStr "firing")

/-- The alerts payload (lines 308-312): severity-filtered count, firing
count, and the first 10 firing alerts. -/
def alertsPayload (alerts active : List JVal) : JVal :=
  .obj [("total_alerts", .num alerts.length),
        ("active_alerts", .num active.length),
        ("alerts", .arr (active.take 10))]

/-- The body of the `try` block of lines 297-313, given the decoded
response `txt` of the inner `json.loads` call: read `data.alerts`,
iterate it, apply the optional severity filter, keep firing alerts, and
build the payload. -/
def alertsFrom (severity : String) (txt : JVal) : Except String (List ToolText) :=
  match pyGetD txt "data" (.obj []) with
  | .error e => .error e
  | .ok data =>
    match pyGetD data "alerts" (.arr []) with
    | .error e => .error e
    | .ok alertsv =>
      match pyIter alertsv with
      | .error e => .error e
      | .ok alerts0 =>
        match (if severity != "" then exFilter (sevPred severity) alerts0
               else .ok alerts0) with
        | .error e => .error e
        | .ok alerts =>
          match exFilter firingPred alerts with
          | .error e => .error e
          | .ok active => .ok [.jsonDoc (alertsPayload alerts active)]

/-- The `try` block of lines 297-313: fetch the raw output text
(defaulting to the literal text of an empty JSON object), decode it with
the external `json.loads` — abstracted as the oracle `loads`, which
reports how the library decodes each string — then reduce the alerts.
`json.loads` demands a string argument. -/
def alertsTry (loads : String → Except String JVal) (severity : String)
    (result : JVal) : Except String (List ToolText) :=
  match pyGetD result "output" (.str "\x7b\x7d") with
  | .error e => .error e
  | .ok out =>
    match out with
    | .str s =>
      match loads s with
      | .error e => .error e
      | .ok txt => alertsFrom severity txt
    | _ => .error "TypeError: loads expects a string"

/-- Embedding of `get_prometheus_alerts` (lines 279-318).  The membership
test at line 290 sits outside the `try`, so its exceptions escape; every
exception inside the `try` is converted to a parse-error text block. -/
def get_prometheus_alerts (env : Env) (loads : String → Except String JVal)
    (severity : String) : Except String (List ToolText) :=
  let result := run_command (env alertsCmd)
  match pyContains result "error" with
  | .error e => .error e
  | .ok true =>
    match pyIndex result "error" with
    | .error e => .error e
    | .ok ev => .ok [.errText ("Error getting alerts: " ++ pyStrOf ev)]
  | .ok false =>
    match alertsTry loads severity result with
    | .error e => .ok [.errText ("Error parsing alerts: " ++ e)]
    | .ok blocks => .ok blocks

/-! Stdio dispatcher (server.py lines 75-94). -/

/-- Lookup of a string argument in the arguments dict with default
`""` (lines 84 and 91): `arguments.get(key, "") if arguments else ""`.
The input schema types these arguments as strings, so the arguments dict
is modelled as string-valued; an absent dict and an absent key both give
`""` (an empty dict is falsy, giving `""` by the other branch — the same
value). -/
def getArgS (arguments : Option (List (String × String))) (k : String) : String :=
  match arguments with
  | none => ""
  | some kvs => ((kvs.find? (fun kv => kv.1 == k)).map (fun kv => kv.2)).getD ""

/-- Embedding of `handle_call_tool` (lines 75-94): route the five
registered tool names to their functions; raise `ValueError` with the
message `"Unknown tool: <name>"` for any other name. -/
def handle_call_tool (env : Env) (loads : String → Except String JVal)
    (name : String) (arguments : Option (List (String × String))) :
    Except String (List ToolText) :=
  if name = "get_k8s_nodes" then get_k8s_nodes env
  else if name = "get_k8s_pods" then get_k8s_pods env (getArgS arguments "namespace")
  else if name = "get_argocd_apps" then get_argocd_apps env
  else if name = "get_ceph_status" then get_ceph_status env
  else if name = "get_prometheus_alerts" then
    get_prometheus_alerts env loads (getArgS arguments "severity")
  else .error ("Unknown tool: " ++ name)

/-- The five registered tool names (lines 22-73). -/
def toolNames : List String :=
  ["get_k8s_nodes", "get_k8s_pods", "get_argocd_apps", "get_ceph_status",
   "get_prometheus_alerts"]

/-! Predicates used to state the claims, and concrete inputs used by
witnesses and counterexamples. -/

/-- The four result shapes the spec claims for `run_command`, each tied
to its stated triggering condition: error/returncode on non-zero exit,
the fixed timeout dict on timeout, the decoded JSON value on zero exit
with decodable stdout, and the output wrapper otherwise.  (Spec wording;
to be compared against `run_command`.) -/
def claimedFourResults (o : ProcOutcome) : Prop :=
  (∃ rc so se, o = .completed rc so se ∧ rc ≠ 0 ∧
    run_command o = .obj [("error", .str se), ("returncode", .num rc)]) ∨
  (o = .timedOut ∧
    run_command o = .obj [("error", .str "Command timed out")]) ∨
  (∃ v se, o = .completed 0 (.jsonText v) se ∧ run_command o = v) ∨
  (∃ s se, o = .completed 0 (.rawText s) se ∧
    run_command o = .obj [("output", .str s)])

/-- Total field access with a default: the value of key `k` when `v` is a
dict carrying it, else `d`. -/
def jGetTot (v : JVal) (k : String) (d : JVal) : JVal :=
  match v with
  | .obj kvs => (jLookup kvs k).getD d
  | _ => d

/-- A condition whose `type` field is the string `"Ready"`. -/
def isReadyCond (c : JVal) : Bool :=
  (jGetTot c "type" .null).eqStr "Ready"

/-- A condition whose `status` field is the string `"True"`. -/
def condStatusTrue (c : JVal) : Bool :=
  (jGetTot c "status" .null).eqStr "True"

/-- Well-formedness of one node condition: a dict with a `type` field,
and with a `status` field when the type is `Ready` (exactly what the
condition loop indexes). -/
def condWF (c : JVal) : Bool :=
  match c with
  | .obj kvs =>
    (jLookup kvs "type").isSome &&
      (!(isReadyCond c) || (jLookup kvs "status").isSome)
  | _ => false

/-- Classification by the last `Ready`-typed condition: `Unknown` when
none exists, otherwise `Ready`/`NotReady` by its `status` field. -/
def classifyLast (conds : List JVal) : String :=
  match conds.reverse.find? isReadyCond with
  | none => "Unknown"
  | some c => if condStatusTrue c then "Ready" else "NotReady"

/-- The spec wording for claim C3: the node has some `Ready`-typed
condition whose status is not the string `"True"` (the claimed criterion
for `NotReady`). -/
def specHasNotReadyCond (conds : List JVal) : Bool :=
  conds.any (fun c => isReadyCond c && !(condStatusTrue c))

/-- A phase outside `Running`/`Pending`/`Failed` (the claimed criterion
for the `unknown` bucket). -/
def unknownPhase (p : JVal) : Bool :=
  !(p.eqStr "Running" || p.eqStr "Pending" || p.eqStr "Failed")

/-- Whether a fallible predicate returned `true` (the Boolean verdict a
Python comprehension keeps an element by, once it is known not to have
raised). -/
def okTrue : Except String Bool → Bool
  | .ok true => true
  | _ => false

/-- Whether a command result carries an `error` key (the shape every
error result of `run_command` has). -/
def errKey : JVal → Bool
  | .obj kvs => kvs.any (fun kv => kv.1 == "error")
  | _ => false

/-- A JSON decoder oracle that decodes nothing (used by witnesses where
the decoder is irrelevant). -/
def loadsNone : String → Except String JVal :=
  fun _ => .error "JSONDecodeError: Expecting value"

/-- An environment where every command fails with exit code 1 and stderr
`boom`. -/
def errEnv : Env := fun _ => .completed 1 (.rawText "") "boom"

/-- A pod payload item with the given phase string. -/
def mkPod (phase : String) : JVal :=
  .obj [("status", .obj [("phase", .str phase)])]

/-- The pod-list payload of the C2 example: phases Running, Running,
Pending, Failed, Unknown. -/
def c2Result : JVal :=
  .obj [("items", .arr [mkPod "Running", mkPod "Running", mkPod "Pending",
                        mkPod "Failed", mkPod "Unknown"])]

/-- An environment whose every command succeeds with the C2 pod payload. -/
def c2Env : Env := fun _ => .completed 0 (.jsonText c2Result) ""

/-- Condition list with two `Ready`-typed conditions: status `False`
first, then status `True` (the C3 counterexample input). -/
def c3CexConds : List JVal :=
  [.obj [("type", .str "Ready"), ("status", .str "False")],
   .obj [("type", .str "Ready"), ("status", .str "True")]]

/-- A well-formed single-node payload: node `n1`, one Ready/True
condition, kubelet version `1.2`. -/
def c3Node : JVal :=
  .obj [("metadata", .obj [("name", .str "n1")]),
        ("status", .obj
          [("conditions", .arr [.obj [("type", .str "Ready"),
                                      ("status", .str "True")]]),
           ("nodeInfo", .obj [("kubeletVersion", .str "1.2")])])]

/-- The node payload wrapping `c3Node`. -/
def c3Result : JVal := .obj [("items", .arr [c3Node])]

/-- An environment whose every command succeeds with the C3 node
payload. -/
def c3Env : Env := fun _ => .completed 0 (.jsonText c3Result) ""

/-- An environment whose every command succeeds with an empty item
list. -/
def emptyItemsEnv : Env :=
  fun _ => .completed 0 (.jsonText (.obj [("items", .arr [])])) ""

/-- An ArgoCD application item. -/
def mkApp (name sync health : String) : JVal :=
  .obj [("metadata", .obj [("name", .str name)]),
        ("status", .obj [("sync", .obj [("status", .str sync)]),
                         ("health", .obj [("status", .str health)])])]

/-- Three concrete applications exercising all tally branches. -/
def c4Apps : List JVal :=
  [mkApp "a" "Synced" "Healthy", mkApp "b" "OutOfSync" "Degraded",
   mkApp "c" "Synced" "Progressing"]

/-- A concrete alert with the given severity and state. -/
def mkAlert (sev state : String) : JVal :=
  .obj [("labels", .obj [("severity", .str sev)]), ("state", .str state)]

/-- Concrete alert list: two critical (one firing), one warning
(firing). -/
def c5Alerts : List JVal :=
  [mkAlert "critical" "firing", mkAlert "warning" "firing",
   mkAlert "critical" "pending"]

/-- Node payload with one item lacking every field: parsed JSON on which
the node loop raises `KeyError` (the C6 counterexample input). -/
def c6BadEnv : Env :=
  fun _ => .completed 0 (.jsonText (.obj [("items", .arr [.obj []])])) ""

/-- An environment where every command times out (its result is an error
dict), used to exercise the Ceph lookup error path. -/
def timeoutEnv : Env := fun _ => .timedOut

/-- An environment where every command succeeds with the non-JSON stdout
`tools-pod-1` (the Ceph lookup then resolves that pod name). -/
def cephPodEnv : Env := fun _ => .completed 0 (.rawText "tools-pod-1") ""

/-- An environment whose every command succeeds with the non-JSON stdout
`notjson` (so the alerts query reaches the inner decode, which fails on
that text under `loadsNone` — the alert-response parse-failure path). -/
def rawOutEnv : Env := fun _ => .completed 0 (.rawText "notjson") ""

/-- Pod list with one Running pod and one pod of unexpected phase. -/
def c2PodsW : List JVal := [mkPod "Running", mkPod "Weird"]

/-- The phases extracted from `c2PodsW`. -/
def c2PhasesW : List JVal := [.str "Running", .str "Weird"]

/-- The expected tally of `c2PodsW`. -/
def c2SumW : PodSummary :=
  { total := 2, running := 1, pending := 0, failed := 0, unknown := 1 }

/-- The expected summary of `c4Apps`. -/
def c4SumW : AppSummary :=
  { total := 3, synced := 2, out_of_sync := 1, healthy := 1, degraded := 1,
    apps := [appRecord (.str "a", .str "Synced", .str "Healthy"),
             appRecord (.str "b", .str "OutOfSync", .str "Degraded"),
             appRecord (.str "c", .str "Synced", .str "Progressing")] }

/-- The alerts of `c5Alerts` retained by the severity filter `critical`. -/
def c5Retained : List JVal :=
  [mkAlert "critical" "firing", mkAlert "critical" "pending"]

/-- The alerts of `c5Retained` whose state is `firing`. -/
def c5Active : List JVal := [mkAlert "critical" "firing"]

/-! Helper lemmas. -/

theorem exMapM_ok_length (f : α → Except String β) :
    ∀ (l : List α) (out : List β), exMapM f l = .ok out →
      out.length = l.length := by
  intro l
  induction l with
  | nil => intro out h; cases h; rfl
  | cons a as ih =>
    intro out h
    simp only [exMapM] at h
    cases hfa : f a with
    | error e => simp [hfa] at h
    | ok b =>
      simp only [hfa] at h
      cases hrest : exMapM f as with
      | error e => simp [hrest] at h
      | ok bs =>
        simp only [hrest] at h
        cases h
        simp [ih bs hrest]

theorem exFilter_ok_filter (p : α → Except String Bool) :
    ∀ (l out : List α), exFilter p l = .ok out →
      out = l.filter (fun a => okTrue (p a)) := by
  intro l
  induction l with
  | nil => intro out h; cases h; rfl
  | cons a as ih =>
    intro out h
    simp only [exFilter] at h
    cases hpa : p a with
    | error e => simp [hpa] at h
    | ok b =>
      simp only [hpa] at h
      cases hrest : exFilter p as with
      | error e => simp [hrest] at h
      | ok rest =>
        simp only [hrest] at h
        cases h
        rw [List.filter_cons]
        cases b with
        | false =>
          have hd : okTrue (p a) = false := by simp [hpa, okTrue]
          simp [hd, ih rest hrest]
        | true =>
          have hd : okTrue (p a) = true := by simp [hpa, okTrue]
          simp [hd, ih rest hrest]

theorem podStep_total (s : PodSummary) (p : JVal) :
    (podStep s p).total = s.total := by
  unfold podStep
  split
  · rfl
  · split
    · rfl
    · split
      · rfl
      · rfl

theorem podStep_sum (s : PodSummary) (p : JVal) :
    (podStep s p).running + (podStep s p).pending + (podStep s p).failed +
        (podStep s p).unknown
      = s.running + s.pending + s.failed + s.unknown + 1 := by
  unfold podStep
  split
  · simp; omega
  · split
    · simp; omega
    · split
      · simp; omega
      · simp; omega

theorem podStep_unknown (s : PodSummary) (p : JVal) :
    (podStep s p).unknown = s.unknown + (if unknownPhase p then 1 else 0) := by
  unfold podStep unknownPhase
  by_cases h1 : p.eqStr "Running" = true
  · simp [h1]
  · by_cases h2 : p.eqStr "Pending" = true
    · simp [h1, h2]
    · by_cases h3 : p.eqStr "Failed" = true
      · simp [h1, h2, h3]
      · simp [h1, h2, h3]

theorem podFold_total :
    ∀ (ps : List JVal) (s0 : PodSummary),
      (ps.foldl podStep s0).total = s0.total := by
  intro ps
  induction ps with
  | nil => intro s0; rfl
  | cons p ps ih =>
    intro s0
    simp only [List.foldl]
    rw [ih, podStep_total]

theorem podFold_sum :
    ∀ (ps : List JVal) (s0 : PodSummary),
      (ps.foldl podStep s0).running + (ps.foldl podStep s0).pending +
          (ps.foldl podStep s0).failed + (ps.foldl podStep s0).unknown
        = s0.running + s0.pending + s0.failed + s0.unknown + ps.length := by
  intro ps
  induction ps with
  | nil => intro s0; simp
  | cons p ps ih =>
    intro s0
    simp only [List.foldl, List.length_cons]
    rw [ih (podStep s0 p)]
    have := podStep_sum s0 p
    omega

theorem podFold_unknown :
    ∀ (ps : List JVal) (s0 : PodSummary),
      (ps.foldl podStep s0).unknown = s0.unknown + ps.countP unknownPhase := by
  intro ps
  induction ps with
  | nil => intro s0; simp
  | cons p ps ih =>
    intro s0
    simp only [List.foldl, List.countP_cons]
    rw [ih (podStep s0 p), podStep_unknown]
    omega

theorem tallyPods_total (phases : List JVal) :
    (tallyPods phases).total = phases.length := by
  unfold tallyPods
  rw [podFold_total]

theorem tallyPods_sum (phases : List JVal) :
    (tallyPods phases).running + (tallyPods phases).pending +
        (tallyPods phases).failed + (tallyPods phases).unknown
      = phases.length := by
  unfold tallyPods
  rw [podFold_sum]
  simp

theorem tallyPods_unknown (phases : List JVal) :
    (tallyPods phases).unknown = phases.countP unknownPhase := by
  unfold tallyPods
  rw [podFold_unknown]
  simp

theorem appStep_total (s : AppSummary) (i : JVal × JVal × JVal) :
    (appStep s i).total = s.total := by
  unfold appStep
  by_cases h1 : i.2.1.eqStr "Synced" = true <;>
    by_cases h2 : i.2.2.eqStr "Healthy" = true <;>
      by_cases h3 : i.2.2.eqStr "Degraded" = true <;>
        simp [h1, h2, h3]

theorem appStep_sync (s : AppSummary) (i : JVal × JVal × JVal) :
    (appStep s i).synced + (appStep s i).out_of_sync
      = s.synced + s.out_of_sync + 1 := by
  unfold appStep
  by_cases h1 : i.2.1.eqStr "Synced" = true <;>
    by_cases h2 : i.2.2.eqStr "Healthy" = true <;>
      by_cases h3 : i.2.2.eqStr "Degraded" = true <;>
        simp [h1, h2, h3] <;> omega

theorem appStep_health (s : AppSummary) (i : JVal × JVal × JVal) :
    (appStep s i).healthy + (appStep s i).degraded
      ≤ s.healthy + s.degraded + 1 := by
  unfold appStep
  by_cases h1 : i.2.1.eqStr "Synced" = true <;>
    by_cases h2 : i.2.2.eqStr "Healthy" = true <;>
      by_cases h3 : i.2.2.eqStr "Degraded" = true <;>
        simp [h1, h2, h3] <;> omega

theorem appStep_apps (s : AppSummary) (i : JVal × JVal × JVal) :
    (appStep s i).apps = s.apps ++ [appRecord i] := by
  unfold appStep
  by_cases h1 : i.2.1.eqStr "Synced" = true <;>
    by_cases h2 : i.2.2.eqStr "Healthy" = true <;>
      by_cases h3 : i.2.2.eqStr "Degraded" = true <;>
        simp [h1, h2, h3]

theorem appFold_total :
    ∀ (infos : List (JVal × JVal × JVal)) (s0 : AppSummary),
      (infos.foldl appStep s0).total = s0.total := by
  intro infos
  induction infos with
  | nil => intro s0; rfl
  | cons i is ih =>
    intro s0
    simp only [List.foldl]
    rw [ih, appStep_total]

theorem appFold_sync :
    ∀ (infos : List (JVal × JVal × JVal)) (s0 : AppSummary),
      (infos.foldl appStep s0).synced + (infos.foldl appStep s0).out_of_sync
        = s0.synced + s0.out_of_sync + infos.length := by
  intro infos
  induction infos with
  | nil => intro s0; simp
  | cons i is ih =>
    intro s0
    simp only [List.foldl, List.length_cons]
    rw [ih (appStep s0 i)]
    have := appStep_sync s0 i
    omega

theorem appFold_health :
    ∀ (infos : List (JVal × JVal × JVal)) (s0 : AppSummary),
      (infos.foldl appStep s0).healthy + (infos.foldl appStep s0).degraded
        ≤ s0.healthy + s0.degraded + infos.length := by
  intro infos
  induction infos with
  | nil => intro s0; simp
  | cons i is ih =>
    intro s0
    simp only [List.foldl, List.length_cons]
    have h1 := ih (appStep s0 i)
    have h2 := appStep_health s0 i
    omega

theorem appFold_apps :
    ∀ (infos : List (JVal × JVal × JVal)) (s0 : AppSummary),
      (infos.foldl appStep s0).apps = s0.apps ++ infos.map appRecord := by
  intro infos
  induction infos with
  | nil => intro s0; simp
  | cons i is ih =>
    intro s0
    simp only [List.foldl, List.map_cons]
    rw [ih (appStep s0 i), appStep_apps]
    simp

theorem tallyApps_total (infos : List (JVal × JVal × JVal)) :
    (tallyApps infos).total = infos.length := by
  unfold tallyApps
  rw [appFold_total]

theorem tallyApps_sync (infos : List (JVal × JVal × JVal)) :
    (tallyApps infos).synced + (tallyApps infos).out_of_sync
      = infos.length := by
  unfold tallyApps
  rw [appFold_sync]
  simp

theorem tallyApps_health (infos : List (JVal × JVal × JVal)) :
    (tallyApps infos).healthy + (tallyApps infos).degraded
      ≤ infos.length := by
  unfold tallyApps
  have := appFold_health infos
    { total := infos.length, synced := 0, out_of_sync := 0, healthy := 0,
      degraded := 0, apps := [] }
  simpa using this

theorem tallyApps_apps (infos : List (JVal × JVal × JVal)) :
    (tallyApps infos).apps = infos.map appRecord := by
  unfold tallyApps
  rw [appFold_apps]
  simp

theorem pyContains_of_errKey (v : JVal) (h : errKey v = true) :
    pyContains v "error" = .ok true := by
  cases v <;> simp_all [errKey, pyContains]

theorem pyIndex_of_errKey (v : JVal) (h : errKey v = true) :
    ∃ ev, pyIndex v "error" = .ok ev := by
  cases v with
  | obj kvs =>
    simp only [errKey] at h
    cases hf : kvs.find? (fun kv => kv.1 == "error") with
    | none =>
      rw [List.find?_eq_none] at hf
      obtain ⟨kv, hmem, hkv⟩ := List.any_eq_true.mp h
      exact absurd hkv (by simpa using hf kv hmem)
    | some kv2 =>
      exact ⟨kv2.2, by simp [pyIndex, jLookup, hf]⟩
  | null => simp [errKey] at h
  | bool b => simp [errKey] at h
  | num n => simp [errKey] at h
  | str s => simp [errKey] at h
  | arr xs => simp [errKey] at h

theorem readyStatusAux_classify :
    ∀ (conds : List JVal) (st : String), conds.all condWF = true →
      readyStatusAux st conds =
        .ok (match conds.reverse.find? isReadyCond with
             | none => st
             | some c => if condStatusTrue c then "Ready" else "NotReady") := by
  intro conds
  induction conds with
  | nil => intro st _; rfl
  | cons c cs ih =>
    intro st hwf
    simp only [List.all_cons, Bool.and_eq_true] at hwf
    obtain ⟨hc, hcs⟩ := hwf
    cases c with
    | obj kvs =>
      simp only [condWF, Bool.and_eq_true] at hc
      obtain ⟨htIsSome, hst⟩ := hc
      cases ht : jLookup kvs "type" with
      | none => rw [ht] at htIsSome; cases htIsSome
      | some t =>
        have hidx : pyIndex (.obj kvs) "type" = .ok t := by
          simp [pyIndex, ht]
        have hready : isReadyCond (.obj kvs) = t.eqStr "Ready" := by
          simp [isReadyCond, jGetTot, ht]
        simp only [readyStatusAux, hidx]
        by_cases hR : t.eqStr "Ready" = true
        · have hrc : isReadyCond (.obj kvs) = true := by rw [hready, hR]
          rw [hrc] at hst
          simp only [Bool.not_true, Bool.false_or] at hst
          cases hs : jLookup kvs "status" with
          | none => rw [hs] at hst; cases hst
          | some s =>
            have hsidx : pyIndex (.obj kvs) "status" = .ok s := by
              simp [pyIndex, hs]
            have hverd : condStatusTrue (.obj kvs) = s.eqStr "True" := by
              simp [condStatusTrue, jGetTot, hs]
            rw [hR]
            simp only [if_true, hsidx]
            rw [ih _ hcs]
            rw [List.reverse_cons, List.find?_append]
            cases hfind : cs.reverse.find? isReadyCond with
            | some c2 => simp [Option.or]
            | none =>
              have hone : [JVal.obj kvs].find? isReadyCond = some (.obj kvs) := by
                simp [List.find?, hrc]
              simp only [Option.or, hone]
              rw [hverd]
        · have hrc : isReadyCond (.obj kvs) = false := by
            rw [hready]
            exact Bool.not_eq_true _ ▸ (by simpa using hR)
          rw [Bool.not_eq_true] at hR
          rw [hR]
          simp only [Bool.false_eq_true, if_false]
          rw [ih _ hcs]
          rw [List.reverse_cons, List.find?_append]
          have hone : [JVal.obj kvs].find? isReadyCond = none := by
            simp [List.find?, hrc]
          rw [hone]
          cases hfind : cs.reverse.find? isReadyCond with
          | some c2 => simp [Option.or]
          | none => simp [Option.or]
    | null => simp [condWF] at hc
    | bool b => simp [condWF] at hc
    | num n => simp [condWF] at hc
    | str s => simp [condWF] at hc
    | arr xs => simp [condWF] at hc

theorem readyStatus_classify (conds : List JVal)
    (h : conds.all condWF = true) :
    readyStatus conds = .ok (classifyLast conds) := by
  unfold readyStatus classifyLast
  exact readyStatusAux_classify conds "Unknown" h

theorem nodes_ok_len (env : Env) (l : List ToolText)
    (h : get_k8s_nodes env = .ok l) : l.length = 1 := by
  simp only [get_k8s_nodes] at h
  repeat' split at h
  all_goals cases h
  all_goals rfl

theorem pods_ok_len (env : Env) (ns : String) (l : List ToolText)
    (h : get_k8s_pods env ns = .ok l) : l.length = 1 := by
  simp only [get_k8s_pods] at h
  repeat' split at h
  all_goals cases h
  all_goals rfl

theorem argo_ok_len (env : Env) (l : List ToolText)
    (h : get_argocd_apps env = .ok l) : l.length = 1 := by
  simp only [get_argocd_apps] at h
  repeat' split at h
  all_goals cases h
  all_goals rfl

theorem cephStep2_ok_len (env : Env) (podName : String) (l : List ToolText)
    (h : cephStep2 env podName = .ok l) : l.length = 1 := by
  simp only [cephStep2] at h
  repeat' split at h
  all_goals cases h
  all_goals rfl

theorem ceph_ok_len (env : Env) (l : List ToolText)
    (h : get_ceph_status env = .ok l) : l.length = 1 := by
  simp only [get_ceph_status] at h
  repeat' split at h
  all_goals first
    | exact cephStep2_ok_len _ _ _ h
    | (cases h <;> rfl)

theorem alertsFrom_ok_len (sev : String) (txt : JVal) (l : List ToolText)
    (h : alertsFrom sev txt = .ok l) : l.length = 1 := by
  simp only [alertsFrom] at h
  repeat' split at h
  all_goals cases h
  all_goals rfl

theorem alertsTry_ok_len (loads : String → Except String JVal) (sev : String)
    (result : JVal) (l : List ToolText)
    (h : alertsTry loads sev result = .ok l) : l.length = 1 := by
  simp only [alertsTry] at h
  repeat' split at h
  all_goals first
    | exact alertsFrom_ok_len _ _ _ h
    | cases h

theorem alertsFrom_ok_shape (sev : String) (txt : JVal) (l : List ToolText)
    (h : alertsFrom sev txt = .ok l) :
    ∃ alerts active : List JVal,
      exFilter firingPred alerts = .ok active ∧
      l = [.jsonDoc (alertsPayload alerts active)] := by
  simp only [alertsFrom] at h
  repeat' split at h
  all_goals cases h
  all_goals exact ⟨_, _, by assumption, rfl⟩

theorem alertsTry_ok_shape (loads : String → Except String JVal)
    (sev : String) (result : JVal) (l : List ToolText)
    (h : alertsTry loads sev result = .ok l) :
    ∃ alerts active : List JVal,
      exFilter firingPred alerts = .ok active ∧
      l = [.jsonDoc (alertsPayload alerts active)] := by
  simp only [alertsTry] at h
  repeat' split at h
  all_goals first
    | exact alertsFrom_ok_shape _ _ _ h
    | cases h

theorem alerts_ok_len (env : Env) (loads : String → Except String JVal)
    (sev : String) (l : List ToolText)
    (h : get_prometheus_alerts env loads sev = .ok l) : l.length = 1 := by
  simp only [get_prometheus_alerts] at h
  cases hc : pyContains (run_command (env alertsCmd)) "error" with
  | error e => rw [hc] at h; cases h
  | ok b =>
    rw [hc] at h
    cases b with
    | true =>
      cases hi : pyIndex (run_command (env alertsCmd)) "error" with
      | error e => rw [hi] at h; cases h
      | ok ev => rw [hi] at h; cases h; rfl
    | false =>
      cases ht : alertsTry loads sev (run_command (env alertsCmd)) with
      | error e => rw [ht] at h; cases h; rfl
      | ok blocks =>
        rw [ht] at h
        cases h
        exact alertsTry_ok_len _ _ _ _ ht

theorem nodes_err_caught (env : Env)
    (h : errKey (run_command (env nodesCmd)) = true) :
    ∃ s, get_k8s_nodes env = .ok [.errText s] := by
  obtain ⟨ev, hev⟩ := pyIndex_of_errKey _ h
  refine ⟨"Error getting nodes: " ++ pyStrOf ev, ?_⟩
  simp only [get_k8s_nodes, pyContains_of_errKey _ h, hev]

theorem pods_err_caught (env : Env) (ns : String)
    (h : errKey (run_command (env (podsCmd ns))) = true) :
    ∃ s, get_k8s_pods env ns = .ok [.errText s] := by
  obtain ⟨ev, hev⟩ := pyIndex_of_errKey _ h
  refine ⟨"Error getting pods: " ++ pyStrOf ev, ?_⟩
  simp only [get_k8s_pods, pyContains_of_errKey _ h, hev]

theorem argo_err_caught (env : Env)
    (h : errKey (run_command (env argoCmd)) = true) :
    ∃ s, get_argocd_apps env = .ok [.errText s] := by
  obtain ⟨ev, hev⟩ := pyIndex_of_errKey _ h
  refine ⟨"Error getting ArgoCD apps: " ++ pyStrOf ev, ?_⟩
  simp only [get_argocd_apps, pyContains_of_errKey _ h, hev]

theorem cephGuard_of_errKey (tp : JVal) (h : errKey tp = true) :
    cephGuard tp = .ok true := by
  simp only [cephGuard, pyContains_of_errKey _ h]

theorem ceph_err_caught (env : Env)
    (h : errKey (run_command (env cephLookupCmd)) = true) :
    get_ceph_status env = .ok [.errText "Error: Could not find rook-ceph-tools pod"] := by
  simp only [get_ceph_status, cephGuard_of_errKey _ h]

theorem alerts_err_caught (env : Env) (loads : String → Except String JVal)
    (sev : String) (h : errKey (run_command (env alertsCmd)) = true) :
    ∃ s, get_prometheus_alerts env loads sev = .ok [.errText s] := by
  obtain ⟨ev, hev⟩ := pyIndex_of_errKey _ h
  refine ⟨"Error getting alerts: " ++ pyStrOf ev, ?_⟩
  simp only [get_prometheus_alerts, pyContains_of_errKey _ h, hev]

theorem alerts_parse_caught (env : Env) (loads : String → Except String JVal)
    (sev : String) (e : String)
    (h1 : pyContains (run_command (env alertsCmd)) "error" = .ok false)
    (h2 : alertsTry loads sev (run_command (env alertsCmd)) = .error e) :
    get_prometheus_alerts env loads sev =
      .ok [.errText ("Error parsing alerts: " ++ e)] := by
  simp only [get_prometheus_alerts, h1, h2]

/-- Claim C1, counterexample: the claim says `run_command` returns
exactly one of four results, but when `subprocess.run` raises an
exception other than the timeout (here a `FileNotFoundError`), the
returned error dict matches none of the four claimed shapes. -/
theorem c1_counterexample :
    ¬ claimedFourResults (.raised "FileNotFoundError: kubectl") := by
  intro h
  rcases h with ⟨rc, so, se, h, _, _⟩ | ⟨h, _⟩ | ⟨v, se, h, _⟩ | ⟨s, se, h, _⟩ <;>
    cases h

/-- Claim C1 (amended): for every argument vector, `run_command` returns
exactly one of five results: the stderr/returncode error dict when the
child exits non-zero, exactly the fixed timeout dict when the 30-unit
timeout elapses, the parsed JSON value when the child exits zero and its
stdout decodes as JSON, the raw-output wrapper when the child exits zero
and stdout does not decode (parse failure is not an error), and an error
dict carrying the exception text when launching or running the child
raises any other exception. -/
theorem c1_run_command_results (o : ProcOutcome) :
    claimedFourResults o ∨
      ∃ m, o = .raised m ∧ run_command o = .obj [("error", .str m)] := by
  cases o with
  | completed rc stdout stderr =>
    left
    by_cases hrc : rc = 0
    · subst hrc
      cases stdout with
      | jsonText v =>
        exact Or.inr (Or.inr (Or.inl ⟨v, stderr, rfl, by simp [run_command]⟩))
      | rawText s =>
        exact Or.inr (Or.inr (Or.inr ⟨s, stderr, rfl, by simp [run_command]⟩))
    · refine Or.inl ⟨rc, stdout, stderr, rfl, hrc, ?_⟩
      simp only [run_command]
      rw [if_pos (by simpa [bne_iff_ne] using hrc)]
  | timedOut => exact Or.inl (Or.inr (Or.inl ⟨rfl, rfl⟩))
  | raised m => exact Or.inr ⟨m, rfl, rfl⟩

/-- Claim C7: every tool call whose name is not one of the five
registered tool names is rejected at the dispatch boundary with the
failure message `Unknown tool: <name>`, for every environment and
argument object — so no per-tool function runs and no external command
outcome can influence the result. -/
theorem c7_unknown_tool (env : Env) (loads : String → Except String JVal)
    (name : String) (arguments : Option (List (String × String)))
    (h : name ∉ toolNames) :
    handle_call_tool env loads name arguments =
      .error ("Unknown tool: " ++ name) := by
  simp only [toolNames, List.mem_cons, List.not_mem_nil, or_false, not_or] at h
  obtain ⟨h1, h2, h3, h4, h5⟩ := h
  simp [handle_call_tool, h1, h2, h3, h4, h5]

/-- Claim C7 witness: the name `unknown_tool` is not registered, and its
dispatch fails with the message `Unknown tool: unknown_tool`. -/
theorem c7_witness :
    "unknown_tool" ∉ toolNames ∧
    handle_call_tool timeoutEnv loadsNone "unknown_tool" none =
      .error ("Unknown tool: " ++ "unknown_tool") :=
  ⟨by decide, c7_unknown_tool timeoutEnv loadsNone "unknown_tool" none (by decide)⟩

/-- Claim C9: an empty namespace argument (or an absent arguments object,
which the dispatcher defaults to the empty string, as does an arguments
dict without a `namespace` key) builds the pod command with
`--all-namespaces`; a non-empty namespace `ns` builds it with `-n ns`
in its place and no `--all-namespaces` flag. -/
theorem c9_namespace_flag :
    podsCmd "" = ["kubectl", "get", "pods", "-o", "json", "--all-namespaces"] ∧
    (∀ ns : String, ns ≠ "" →
      podsCmd ns = ["kubectl", "get", "pods", "-o", "json", "-n", ns]) ∧
    (∀ (env : Env) (loads : String → Except String JVal),
      handle_call_tool env loads "get_k8s_pods" none = get_k8s_pods env "") ∧
    (∀ (env : Env) (loads : String → Except String JVal)
        (kvs : List (String × String)),
      kvs.find? (fun kv => kv.1 == "namespace") = none →
      handle_call_tool env loads "get_k8s_pods" (some kvs) =
        get_k8s_pods env "") := by
  refine ⟨rfl, ?_, ?_, ?_⟩
  · intro ns h
    simp only [podsCmd]
    rw [if_pos (by simpa [bne_iff_ne] using h)]
    rfl
  · intro env loads
    rfl
  · intro env loads kvs h
    simp [handle_call_tool, getArgS, h]

/-- Claim C9 witness: the namespace `monitoring` is non-empty and yields
the `-n monitoring` command line; an arguments dict without a `namespace`
key dispatches as the empty namespace. -/
theorem c9_witness :
    ("monitoring" ≠ "" ∧
      podsCmd "monitoring" =
        ["kubectl", "get", "pods", "-o", "json", "-n", "monitoring"]) ∧
    handle_call_tool timeoutEnv loadsNone "get_k8s_pods" (some [("other", "x")]) =
      get_k8s_pods timeoutEnv "" :=
  ⟨⟨by decide, c9_namespace_flag.2.1 "monitoring" (by decide)⟩,
   c9_namespace_flag.2.2.2 timeoutEnv loadsNone [("other", "x")] (by decide)⟩

/-- Claim C2: for every pod list the query summarizes, the four phase
buckets sum exactly to the total pod count (which equals the list
length), every pod whose phase is unset or outside Running/Pending/Failed
is counted under unknown, and the phase list Running, Running, Pending,
Failed, Unknown yields the summary total 5, running 2, pending 1,
failed 1, unknown 1. -/
theorem c2_pod_buckets :
    (∀ (pods : List JVal) (s : PodSummary), summarizePods pods = .ok s →
      (s.running + s.pending + s.failed + s.unknown = s.total ∧
       s.total = pods.length ∧
       ∀ phases, exMapM phaseOf pods = .ok phases →
         s.unknown = phases.countP unknownPhase)) ∧
    get_k8s_pods c2Env "" =
      .ok [.jsonDoc (.obj [("summary", podSummaryJVal
        { total := 5, running := 2, pending := 1, failed := 1, unknown := 1 }),
        ("raw", c2Result)])] := by
  constructor
  · intro pods s h
    simp only [summarizePods] at h
    cases hm : exMapM phaseOf pods with
    | error e => rw [hm] at h; cases h
    | ok phases =>
      rw [hm] at h
      cases h
      refine ⟨?_, ?_, ?_⟩
      · rw [tallyPods_total, tallyPods_sum]
      · rw [tallyPods_total]
        exact exMapM_ok_length _ _ _ hm
      · intro phases2 hm2
        cases hm2
        exact tallyPods_unknown phases
  · rfl

/-- Claim C2 witness: the two-pod list with phases Running and Weird
summarizes to total 2, running 1, unknown 1, satisfying the bucket sum
and the unknown count. -/
theorem c2_witness :
    summarizePods c2PodsW = .ok c2SumW ∧
    c2SumW.running + c2SumW.pending + c2SumW.failed + c2SumW.unknown
      = c2SumW.total ∧
    c2SumW.unknown = c2PhasesW.countP unknownPhase :=
  ⟨rfl, (c2_pod_buckets.1 c2PodsW c2SumW rfl).1,
   (c2_pod_buckets.1 c2PodsW c2SumW rfl).2.2 c2PhasesW rfl⟩

/-- Claim C3, counterexample: on a node whose condition list carries two
Ready-typed conditions — status False first, then status True — the code
classifies the node Ready, although the node has a Ready-typed condition
whose status is not the string True; so NotReady is not assigned whenever
such a condition exists, refuting the claimed iff. -/
theorem c3_counterexample :
    readyStatus c3CexConds = .ok "Ready" ∧
    specHasNotReadyCond c3CexConds = true :=
  ⟨rfl, rfl⟩

/-- Claim C3 (amended): on well-formed condition lists the classification
is decided by the LAST Ready-typed condition — NotReady iff its status
field is not the string True — and a node with no Ready-typed condition
is classified Unknown; each node contributes one formatted line built
from its name, classification and kubelet version, and the success
payload carries the lines, the node count and the raw result. -/
theorem c3_node_classification :
    (∀ conds : List JVal, conds.all condWF = true →
      readyStatus conds = .ok (classifyLast conds)) ∧
    (∀ (node md name st conds : JVal) (condList : List JVal) (cls : String)
        (ni ver : JVal),
      pyIndex node "metadata" = .ok md → pyIndex md "name" = .ok name →
      pyIndex node "status" = .ok st → pyIndex st "conditions" = .ok conds →
      pyIter conds = .ok condList → readyStatus condList = .ok cls →
      pyIndex st "nodeInfo" = .ok ni → pyIndex ni "kubeletVersion" = .ok ver →
      nodeLine node =
        .ok (pyStrOf name ++ ": " ++ cls ++ " (v" ++ pyStrOf ver ++ ")")) ∧
    (∀ (env : Env) (items : JVal) (nodes : List JVal) (info : List String),
      pyContains (run_command (env nodesCmd)) "error" = .ok false →
      pyGetD (run_command (env nodesCmd)) "items" (.arr []) = .ok items →
      pyIter items = .ok nodes →
      exMapM nodeLine nodes = .ok info →
      get_k8s_nodes env =
        .ok [.jsonDoc (nodesPayload (run_command (env nodesCmd))
          nodes.length info)]) := by
  refine ⟨fun conds h => readyStatus_classify conds h, ?_, ?_⟩
  · intro node md name st conds condList cls ni ver h1 h2 h3 h4 h5 h6 h7 h8
    simp only [nodeLine, h1, h2, h3, h4, h5, h6, h7, h8]
  · intro env items nodes info h1 h2 h3 h4
    simp only [get_k8s_nodes, h1, h2, h3, h4]

/-- Claim C3 witness: the duplicate-Ready condition list is well-formed
and classifies by its last Ready condition; a concrete well-formed
single-node payload produces the line `n1: Ready (v1.2)` and the full
payload with count 1. -/
theorem c3_witness :
    (c3CexConds.all condWF = true ∧
      readyStatus c3CexConds = .ok (classifyLast c3CexConds)) ∧
    nodeLine c3Node = .ok ("n1" ++ ": " ++ "Ready" ++ " (v" ++ "1.2" ++ ")") ∧
    get_k8s_nodes c3Env =
      .ok [.jsonDoc (nodesPayload c3Result 1 ["n1: Ready (v1.2)"])] :=
  ⟨⟨rfl, c3_node_classification.1 c3CexConds rfl⟩,
   c3_node_classification.2.1 c3Node (.obj [("name", .str "n1")]) (.str "n1")
     (.obj [("conditions", .arr [.obj [("type", .str "Ready"),
                                       ("status", .str "True")]]),
            ("nodeInfo", .obj [("kubeletVersion", .str "1.2")])])
     (.arr [.obj [("type", .str "Ready"), ("status", .str "True")]])
     [.obj [("type", .str "Ready"), ("status", .str "True")]]
     "Ready" (.obj [("kubeletVersion", .str "1.2")]) (.str "1.2")
     rfl rfl rfl rfl rfl rfl rfl rfl,
   c3_node_classification.2.2 c3Env (.arr [c3Node]) [c3Node]
     ["n1: Ready (v1.2)"] rfl rfl rfl rfl⟩

/-- Claim C4: for every ArgoCD application list the query summarizes,
synced plus out_of_sync equals the total (the list length), healthy plus
degraded is at most the total, a name/sync/health record is emitted for
each application in order, and an empty application list yields the
all-zero summary with an empty apps list. -/
theorem c4_app_summary :
    (∀ (apps : List JVal) (s : AppSummary), summarizeApps apps = .ok s →
      (s.synced + s.out_of_sync = s.total ∧
       s.healthy + s.degraded ≤ s.total ∧
       s.total = apps.length ∧
       ∀ infos, exMapM appInfo apps = .ok infos →
         s.apps = infos.map appRecord)) ∧
    handle_call_tool emptyItemsEnv loadsNone "get_argocd_apps" none =
      .ok [.jsonDoc (.obj [("total", .num 0), ("synced", .num 0),
        ("out_of_sync", .num 0), ("healthy", .num 0), ("degraded", .num 0),
        ("apps", .arr [])])] := by
  constructor
  · intro apps s h
    simp only [summarizeApps] at h
    cases hm : exMapM appInfo apps with
    | error e => rw [hm] at h; cases h
    | ok infos =>
      rw [hm] at h
      cases h
      refine ⟨?_, ?_, ?_, ?_⟩
      · rw [tallyApps_total, tallyApps_sync]
      · rw [tallyApps_total]
        exact tallyApps_health infos
      · rw [tallyApps_total]
        exact exMapM_ok_length _ _ _ hm
      · intro infos2 hm2
        cases hm2
        exact tallyApps_apps infos
  · rfl

/-- Claim C4 witness: a three-application list (Synced/Healthy,
OutOfSync/Degraded, Synced/Progressing) summarizes to total 3, synced 2,
out_of_sync 1, healthy 1, degraded 1 with three records, satisfying both
tally equations. -/
theorem c4_witness :
    summarizeApps c4Apps = .ok c4SumW ∧
    c4SumW.synced + c4SumW.out_of_sync = c4SumW.total ∧
    c4SumW.healthy + c4SumW.degraded ≤ c4SumW.total :=
  ⟨rfl, (c4_app_summary.1 c4Apps c4SumW rfl).1,
   (c4_app_summary.1 c4Apps c4SumW rfl).2.1⟩

/-- Claim C5: for every alert list and non-empty severity, the severity
filter retains exactly the alerts whose nested labels.severity field
equals the severity string (exact string equality), the firing filter is
then applied to the retained alerts, and the result is truncated to its
first 10 elements, so the returned alerts list never exceeds 10
entries — also at the function level: every successful payload's alerts
field has at most 10 entries. -/
theorem c5_alert_filtering :
    (∀ (sev : String) (alerts0 retained active : List JVal),
      sev ≠ "" →
      exFilter (sevPred sev) alerts0 = .ok retained →
      exFilter firingPred retained = .ok active →
      (retained = alerts0.filter (fun a => okTrue (sevPred sev a)) ∧
       active = retained.filter (fun a => okTrue (firingPred a)) ∧
       (active.take 10).length ≤ 10)) ∧
    (∀ (sev : String) (labels : List (String × JVal)) (s : String),
      jLookup labels "severity" = some (.str s) →
      sevPred sev (.obj [("labels", .obj labels)]) = .ok (s == sev)) ∧
    (∀ (env : Env) (loads : String → Except String JVal) (sev : String)
        (v : JVal),
      get_prometheus_alerts env loads sev = .ok [.jsonDoc v] →
      ∃ t a : JVal, ∃ al : List JVal,
        v = .obj [("total_alerts", t), ("active_alerts", a),
                  ("alerts", .arr al)] ∧ al.length ≤ 10) := by
  refine ⟨?_, ?_, ?_⟩
  · intro sev alerts0 retained active _ h1 h2
    refine ⟨exFilter_ok_filter _ _ _ h1, exFilter_ok_filter _ _ _ h2, ?_⟩
    rw [List.length_take]
    omega
  · intro sev labels s h
    have h1 : pyGetD (.obj [("labels", .obj labels)]) "labels" (.obj [])
        = .ok (.obj labels) := rfl
    have h2 : pyGet (.obj labels) "severity" = .ok (.str s) := by
      simp only [pyGet, pyGetD]
      rw [h]
      rfl
    simp [sevPred, h1, h2, JVal.eqStr]
  · intro env loads sev v h
    simp only [get_prometheus_alerts] at h
    cases hc : pyContains (run_command (env alertsCmd)) "error" with
    | error e => rw [hc] at h; cases h
    | ok b =>
      rw [hc] at h
      cases b with
      | true =>
        cases hi : pyIndex (run_command (env alertsCmd)) "error" with
        | error e => rw [hi] at h; cases h
        | ok ev => rw [hi] at h; simp at h
      | false =>
        cases ht : alertsTry loads sev (run_command (env alertsCmd)) with
        | error e => rw [ht] at h; simp at h
        | ok blocks =>
          rw [ht] at h
          obtain ⟨alerts, active, hfa, hshape⟩ := alertsTry_ok_shape _ _ _ _ ht
          subst hshape
          cases h
          refine ⟨.num alerts.length, .num active.length, active.take 10,
            rfl, ?_⟩
          rw [List.length_take]
          omega

/-- Claim C5 witness: with severity `critical` over the three-alert list,
the severity filter retains the two critical alerts, the firing filter
then keeps one, and the truncated result has at most 10 entries. -/
theorem c5_witness :
    ("critical" ≠ "" ∧
     exFilter (sevPred "critical") c5Alerts = .ok c5Retained ∧
     exFilter firingPred c5Retained = .ok c5Active) ∧
    (c5Retained = c5Alerts.filter (fun a => okTrue (sevPred "critical" a)) ∧
     c5Active = c5Retained.filter (fun a => okTrue (firingPred a)) ∧
     (c5Active.take 10).length ≤ 10) :=
  ⟨⟨by decide, rfl, rfl⟩,
   c5_alert_filtering.1 "critical" c5Alerts c5Retained c5Active
     (by decide) rfl rfl⟩

/-- Claim C6, counterexample: on a successful command whose parsed JSON
payload has an item with no metadata field, the node query raises an
uncaught KeyError instead of returning an error document — the error
propagates out of the per-tool function. -/
theorem c6_counterexample :
    get_k8s_nodes c6BadEnv = .error "KeyError: metadata" := rfl

/-- Claim C6 (amended): every error surfaced by the command runner — any
result carrying an error key, i.e. non-zero exit, timeout or launch
failure — is caught by each of the five per-tool functions and converted
into a returned single error text block, and every failure inside the
alert-response parse block is likewise caught and converted into a
single parse-error text block; however, a parsed JSON payload missing
expected fields makes a per-tool function raise an uncaught exception,
so the catch-all does not extend to malformed payloads. -/
theorem c6_errors_caught :
    ∀ (env : Env) (loads : String → Except String JVal) (ns sev : String),
      (errKey (run_command (env nodesCmd)) = true →
        ∃ s, get_k8s_nodes env = .ok [.errText s]) ∧
      (errKey (run_command (env (podsCmd ns))) = true →
        ∃ s, get_k8s_pods env ns = .ok [.errText s]) ∧
      (errKey (run_command (env argoCmd)) = true →
        ∃ s, get_argocd_apps env = .ok [.errText s]) ∧
      (errKey (run_command (env cephLookupCmd)) = true →
        get_ceph_status env =
          .ok [.errText "Error: Could not find rook-ceph-tools pod"]) ∧
      (errKey (run_command (env alertsCmd)) = true →
        ∃ s, get_prometheus_alerts env loads sev = .ok [.errText s]) ∧
      (∀ e : String,
        pyContains (run_command (env alertsCmd)) "error" = .ok false →
        alertsTry loads sev (run_command (env alertsCmd)) = .error e →
        get_prometheus_alerts env loads sev =
          .ok [.errText ("Error parsing alerts: " ++ e)]) :=
  fun env loads ns sev =>
    ⟨nodes_err_caught env, pods_err_caught env ns, argo_err_caught env,
     ceph_err_caught env, alerts_err_caught env loads sev,
     fun e h1 h2 => alerts_parse_caught env loads sev e h1 h2⟩

/-- Claim C6 witness: in an environment where every command exits 1 with
stderr `boom`, the command result carries the error key and the Ceph
query returns its single fixed error block; and in an environment whose
alerts command succeeds with undecodable stdout, the parse failure is
caught and returned as a single parse-error block. -/
theorem c6_witness :
    (errKey (run_command (errEnv cephLookupCmd)) = true ∧
     get_ceph_status errEnv =
       .ok [.errText "Error: Could not find rook-ceph-tools pod"]) ∧
    (pyContains (run_command (rawOutEnv alertsCmd)) "error" = .ok false ∧
     alertsTry loadsNone "" (run_command (rawOutEnv alertsCmd)) =
       .error "JSONDecodeError: Expecting value" ∧
     get_prometheus_alerts rawOutEnv loadsNone "" =
       .ok [.errText ("Error parsing alerts: " ++
         "JSONDecodeError: Expecting value")]) :=
  ⟨⟨rfl, (c6_errors_caught errEnv loadsNone "" "").2.2.2.1 rfl⟩,
   ⟨rfl, rfl,
    (c6_errors_caught rawOutEnv loadsNone "" "").2.2.2.2.2
      "JSONDecodeError: Expecting value" rfl rfl⟩⟩

/-- Claim C8: the Ceph query resolves the tools pod first; whenever the
lookup result is an error (carries the error key) or its output is falsy
(in particular the empty string), the query returns the fixed message
`Error: Could not find rook-ceph-tools pod` for every environment — so
the exec command's outcome never enters — and only when the lookup yields
a non-empty output string does the query continue as the status command
executed inside the stripped pod name. -/
theorem c8_ceph_two_step :
    ∀ env : Env,
      (cephGuard (run_command (env cephLookupCmd)) = .ok true →
        get_ceph_status env =
          .ok [.errText "Error: Could not find rook-ceph-tools pod"]) ∧
      (errKey (run_command (env cephLookupCmd)) = true →
        cephGuard (run_command (env cephLookupCmd)) = .ok true) ∧
      (run_command (env cephLookupCmd) = .obj [("output", .str "")] →
        cephGuard (run_command (env cephLookupCmd)) = .ok true) ∧
      (∀ s : String,
        run_command (env cephLookupCmd) = .obj [("output", .str s)] →
        s ≠ "" →
        get_ceph_status env = cephStep2 env s.trim) := by
  intro env
  refine ⟨?_, cephGuard_of_errKey _, ?_, ?_⟩
  · intro h
    simp only [get_ceph_status, h]
  · intro h
    rw [h]
    rfl
  · intro s h hs
    have hg : cephGuard (.obj [("output", .str s)]) = .ok false := by
      simp [cephGuard, pyContains, pyGet, pyGetD, jLookup, pyTruthy,
            bne_iff_ne, hs]
    simp only [get_ceph_status, h, hg]
    rfl

/-- Claim C8 witness: a timed-out lookup yields the fixed error message;
a lookup whose raw output is `tools-pod-1` continues as the status
command inside that pod. -/
theorem c8_witness :
    (cephGuard (run_command (timeoutEnv cephLookupCmd)) = .ok true ∧
     get_ceph_status timeoutEnv =
       .ok [.errText "Error: Could not find rook-ceph-tools pod"]) ∧
    (run_command (cephPodEnv cephLookupCmd) =
       .obj [("output", .str "tools-pod-1")] ∧
     get_ceph_status cephPodEnv = cephStep2 cephPodEnv ("tools-pod-1".trim)) :=
  ⟨⟨rfl, (c8_ceph_two_step timeoutEnv).1 rfl⟩,
   ⟨rfl, (c8_ceph_two_step cephPodEnv).2.2.2 "tools-pod-1" rfl (by decide)⟩⟩

/-- Claim C10: for every registered tool and every command-runner
result — success or error — the per-tool function, and the dispatcher
routing to it, returns a list of exactly one text content block whenever
it returns at all. -/
theorem c10_single_block :
    ∀ (env : Env) (loads : String → Except String JVal) (ns sev name : String)
      (args : Option (List (String × String))) (l : List ToolText),
      (get_k8s_nodes env = .ok l → l.length = 1) ∧
      (get_k8s_pods env ns = .ok l → l.length = 1) ∧
      (get_argocd_apps env = .ok l → l.length = 1) ∧
      (get_ceph_status env = .ok l → l.length = 1) ∧
      (get_prometheus_alerts env loads sev = .ok l → l.length = 1) ∧
      (handle_call_tool env loads name args = .ok l → l.length = 1) := by
  intro env loads ns sev name args l
  refine ⟨nodes_ok_len env l, pods_ok_len env ns l, argo_ok_len env l,
    ceph_ok_len env l, alerts_ok_len env loads sev l, ?_⟩
  intro h
  simp only [handle_call_tool] at h
  repeat' split at h
  all_goals first
    | exact nodes_ok_len _ _ h
    | exact pods_ok_len _ _ _ h
    | exact argo_ok_len _ _ h
    | exact ceph_ok_len _ _ h
    | exact alerts_ok_len _ _ _ _ h
    | cases h

/-- Claim C10 witness: in the failing environment, the node query returns
exactly one error block and the Ceph query returns exactly one fixed
error block. -/
theorem c10_witness :
    (get_k8s_nodes errEnv = .ok [.errText "Error getting nodes: boom"] ∧
      ([ToolText.errText "Error getting nodes: boom"] : List ToolText).length
        = 1) ∧
    (get_ceph_status errEnv =
        .ok [.errText "Error: Could not find rook-ceph-tools pod"] ∧
      ([ToolText.errText "Error: Could not find rook-ceph-tools pod"] :
        List ToolText).length = 1) :=
  ⟨⟨rfl, (c10_single_block errEnv loadsNone "" "" "x" none
      [ToolText.errText "Error getting nodes: boom"]).1 rfl⟩,
   ⟨rfl, (c10_single_block errEnv loadsNone "" "" "x" none
      [ToolText.errText "Error: Could not find rook-ceph-tools pod"]).2.2.2.1
      rfl⟩⟩

end HomelabMCP
